import Mathlib

/-!
PulseOximeter firmware (`src/firmware/PulseOximeter/src/main.cpp`).

A shallow embedding of the two entry points of the sketch, `setup()` and
`loop()`.  Every call the sketch makes on a peripheral (serial console, WiFi,
MAX30105 sensor, MQTT client, timer) is recorded as an `Action`; a run of the
program is the list of actions it performs, in program order.  The values the
peripherals hand back (WiFi status polls, the result of `particleSensor.begin`,
`client.connected()`, `particleSensor.getIR()`) are inputs of the model.

The two `while` loops of `setup()` have no bound in the source, so they are
modelled with a fuel argument that counts evaluations of the loop condition.
-/

namespace PulseOximeter

/-! ## Configuration constants (lines 7-9) -/

/-- The constant `ssid`. -/
def ssid : String := "HOSPITAL_WIFI"

/-- The constant `password`. -/
def password : String := "SECURE_PASSWORD"

/-- The constant `mqtt_server`. -/
def mqtt_server : String := "192.168.1.10"

/-! ## Peripheral vocabulary -/

/-- Status codes returned by `WiFi.status()` (type `wl_status_t` of the WiFi
library, which the sketch only includes).  The sketch compares the status with
`WL_CONNECTED` and nothing else. -/
inductive WlStatus where
  | WL_NO_SHIELD
  | WL_IDLE_STATUS
  | WL_NO_SSID_AVAIL
  | WL_SCAN_COMPLETED
  | WL_CONNECTED
  | WL_CONNECT_FAILED
  | WL_CONNECTION_LOST
  | WL_DISCONNECTED
  deriving DecidableEq, Repr

/-- One call made by the sketch on a peripheral, with the value the call
returned where the sketch looks at it.  `clientConnect` and `clientPublish` are
the connect and publish operations of the MQTT client object `client`; they are
part of the vocabulary so that their absence from a run can be stated. -/
inductive Action where
  | serialBegin (baud : Nat)
  | wifiBegin (ssid password : String)
  | wifiStatus (result : WlStatus)
  | delay (ms : Nat)
  | println (msg : String)
  | sensorBegin (ok : Bool)
  | sensorSetup
  | setServer (host : String) (port : Nat)
  | clientConnected (result : Bool)
  | clientConnect
  | clientLoop
  | getIR (value : Int)
  | clientPublish (topic payload : String)
  deriving DecidableEq, Repr

/-- Recognises a call of `WiFi.status`. -/
def Action.isWifiStatus : Action → Bool
  | .wifiStatus _ => true
  | _ => false

/-- Recognises a call of `particleSensor.begin`. -/
def Action.isSensorBegin : Action → Bool
  | .sensorBegin _ => true
  | _ => false

/-- Recognises a call of `particleSensor.getIR`. -/
def Action.isGetIR : Action → Bool
  | .getIR _ => true
  | _ => false

/-- Recognises a call of `client.loop`. -/
def Action.isClientLoop : Action → Bool
  | .clientLoop => true
  | _ => false

/-- Recognises a call of `client.connected`. -/
def Action.isClientConnected : Action → Bool
  | .clientConnected _ => true
  | _ => false

/-- Recognises a connect attempt on the MQTT client. -/
def Action.isClientConnect : Action → Bool
  | .clientConnect => true
  | _ => false

/-- Recognises a publish on the MQTT client. -/
def Action.isClientPublish : Action → Bool
  | .clientPublish _ _ => true
  | _ => false

/-! ## `setup()` (lines 16-35) -/

/-- What the peripherals answer during a run: the result of the `i`-th call of
`WiFi.status()`, the result of `particleSensor.begin`, and for the `i`-th
iteration of `loop()` the result of `client.connected()` and of
`particleSensor.getIR()` (as stored in the `long irValue`). -/
structure Env where
  wifiStatus : Nat → WlStatus
  sensorBegin : Bool
  connected : Nat → Bool
  irValue : Nat → Int

/-- The loop of lines 21-24,
`while (WiFi.status() != WL_CONNECTED) { delay(500); Serial.println(...); }`,
started at poll number `i`.  `fuel` bounds the number of evaluations of the
condition.  The result is `(true, t)` when the loop was left with trace `t`, and
`(false, t)` when the fuel ran out with the loop still going. -/
def wifiLoop (status : Nat → WlStatus) : Nat → Nat → Bool × List Action
  | 0, _ => (false, [])
  | fuel + 1, i =>
    if status i ≠ WlStatus.WL_CONNECTED then
      let rest := wifiLoop status fuel (i + 1)
      (rest.1,
        Action.wifiStatus (status i) :: Action.delay 500 ::
          Action.println "Connecting to WiFi..." :: rest.2)
    else
      (true, [Action.wifiStatus (status i)])

/-- How far a function has got: it has returned to its caller, or it is still
running (inside a loop) when the fuel is used up. -/
inductive Outcome where
  | returned (trace : List Action)
  | running (trace : List Action)
  deriving DecidableEq, Repr

/-- The actions performed so far. -/
def Outcome.trace : Outcome → List Action
  | .returned t => t
  | .running t => t

/-- Whether the function has returned. -/
def Outcome.hasReturned : Outcome → Bool
  | .returned _ => true
  | .running _ => false

/-- The loop of line 29, `while (1);`: the condition is the constant 1 and the
body is empty, so every evaluation of the condition leads to the next one and
no action is performed. -/
def spin (trace : List Action) : Nat → Outcome
  | 0 => Outcome.running trace
  | fuel + 1 => spin trace fuel

/-- The function `setup()`. -/
def setup (env : Env) (fuel : Nat) : Outcome :=
  let start := [Action.serialBegin 115200, Action.wifiBegin ssid password]
  match wifiLoop env.wifiStatus fuel 0 with
  | (false, t) => Outcome.running (start ++ t)
  | (true, t) =>
    if !env.sensorBegin then
      spin (start ++ t ++
        [Action.sensorBegin false,
         Action.println "MAX30105 was not found. Please check wiring/power. "]) fuel
    else
      Outcome.returned (start ++ t ++
        [Action.sensorBegin true, Action.sensorSetup, Action.setServer mqtt_server 1883])

/-! ## `loop()` (lines 37-55) -/

/-- What one iteration of `loop()` receives from the peripherals: the result of
`client.connected()` and the value of `particleSensor.getIR()` stored in
`long irValue`. -/
structure LoopInput where
  connected : Bool
  irValue : Int
  deriving DecidableEq, Repr

/-- The function `loop()`.  The branch of `if (!client.connected())` holds only
the comment `// Reconnect logic`, so both outcomes of the test continue with
`client.loop()`; the `client.publish` call of line 51 is commented out. -/
def loop (inp : LoopInput) : List Action :=
  let reconnect : List Action := if !inp.connected then [] else []
  [Action.clientConnected inp.connected] ++ reconnect ++
  [Action.clientLoop, Action.getIR inp.irValue] ++
  (if inp.irValue < 50000 then
    [Action.println "Finger removed!"]
  else
    [Action.println "Monitoring..."]) ++
  [Action.delay 100]

/-- Successive iterations of `loop()`, one per input. -/
def loopIterations : List LoopInput → List Action
  | [] => []
  | inp :: rest => loop inp ++ loopIterations rest

/-- The inputs of the first `n` iterations of `loop()` under `env`. -/
def loopInputs (env : Env) (n : Nat) : List LoopInput :=
  (List.range n).map (fun i => { connected := env.connected i, irValue := env.irValue i })

/-- The Arduino entry point, `setup(); for (;;) loop();`: `loop()` is entered
only after `setup()` has returned.  `fuel` bounds each loop separately: the
condition evaluations inside `setup()` and the iterations of `loop()`. -/
def main (env : Env) (fuel : Nat) : List Action :=
  match setup env fuel with
  | .running t => t
  | .returned t => t ++ loopIterations (loopInputs env fuel)

/-! ## Reading the console output as a classification -/

/-- The categories of a classified event in the specification. -/
inductive Category where
  | signalPresent
  | signalAbsent
  | anomalous
  deriving DecidableEq, Repr

/-- The category an action reports, if any: `loop()` reports signal-absent by
printing "Finger removed!" and signal-present by printing "Monitoring...". -/
def categoryOf : Action → Option Category
  | .println "Finger removed!" => some Category.signalAbsent
  | .println "Monitoring..." => some Category.signalPresent
  | _ => none

/-- The classifications reported in a trace, in order. -/
def classifications (trace : List Action) : List Category :=
  trace.filterMap categoryOf

/-- Recognises an action that reports a classification. -/
def Action.isClassification (a : Action) : Bool :=
  (categoryOf a).isSome

/-- The classification that follows from the threshold alone. -/
def thresholdCategory (irValue : Int) : Category :=
  if irValue < 50000 then Category.signalAbsent else Category.signalPresent

/-- The part of a trace that comes before the first call of
`particleSensor.begin` (the whole trace when there is no such call). -/
def beforeSensorInit (trace : List Action) : List Action :=
  trace.takeWhile (fun a => !a.isSensorBegin)

/-- The message an action prints on the serial console, if it prints one. -/
def printedMessage : Action → Option String
  | .println msg => some msg
  | _ => none

/-- The messages printed on the serial console in a trace, in order. -/
def printed (trace : List Action) : List String :=
  trace.filterMap printedMessage

/-- A status sequence that never reports a connection. -/
def neverConnected : Nat → WlStatus := fun _ => WlStatus.WL_DISCONNECTED

/-- A status sequence whose first `WL_CONNECTED` is at index 2. -/
def connectedAtTwo : Nat → WlStatus :=
  fun i => if i < 2 then WlStatus.WL_DISCONNECTED else WlStatus.WL_CONNECTED

/-- An environment whose WiFi connects at the third poll and whose sensor is
not found. -/
def faultEnv : Env :=
  { wifiStatus := connectedAtTwo, sensorBegin := false,
    connected := fun _ => false, irValue := fun _ => 60000 }

/-- An environment whose WiFi connects at the third poll and whose sensor is
found. -/
def okEnv : Env :=
  { wifiStatus := connectedAtTwo, sensorBegin := true,
    connected := fun _ => false, irValue := fun _ => 60000 }

/-! ## Facts about `loop()` -/

/-- The trace of one iteration of `loop()`, written out. -/
theorem loop_trace (inp : LoopInput) :
    loop inp =
      [Action.clientConnected inp.connected, Action.clientLoop, Action.getIR inp.irValue,
       Action.println (if inp.irValue < 50000 then "Finger removed!" else "Monitoring..."),
       Action.delay 100] := by
  unfold loop
  split_ifs <;> simp

/-- One iteration reports exactly one classification, the one given by the
threshold. -/
theorem classifications_loop (inp : LoopInput) :
    classifications (loop inp) = [thresholdCategory inp.irValue] := by
  rw [loop_trace]
  unfold classifications thresholdCategory
  split_ifs <;> simp [categoryOf]

/-- The classifications of a run of iterations are those of its iterations. -/
theorem classifications_loopIterations (inputs : List LoopInput) :
    classifications (loopIterations inputs) =
      inputs.map (fun inp => thresholdCategory inp.irValue) := by
  induction inputs with
  | nil => rfl
  | cons inp rest ih =>
    have h := classifications_loop inp
    unfold classifications at h ih ⊢
    simp only [loopIterations, List.filterMap_append, h, ih, List.map_cons, List.singleton_append]

/-- No iteration of `loop()` performs an action outside its five calls. -/
theorem mem_loopIterations {a : Action} {inputs : List LoopInput}
    (h : a ∈ loopIterations inputs) : ∃ inp ∈ inputs, a ∈ loop inp := by
  induction inputs with
  | nil => simp [loopIterations] at h
  | cons inp rest ih =>
    simp only [loopIterations, List.mem_append] at h
    rcases h with h | h
    · exact ⟨inp, List.mem_cons_self _ _, h⟩
    · obtain ⟨x, hx, hax⟩ := ih h
      exact ⟨x, List.mem_cons_of_mem _ hx, hax⟩

/-- C1: one iteration of `loop()` reports signal-absent ("Finger removed!")
exactly when the reading is below 50000 and signal-present ("Monitoring...")
otherwise, so a reading of exactly 50000 is signal-present; the reading stream
60000, 61000, 3000, 62000 is reported as present, present, absent, present. -/
theorem loop_classifies_by_threshold :
    (∀ inp : LoopInput,
      (classifications (loop inp) = [Category.signalAbsent] ↔ inp.irValue < 50000) ∧
      (classifications (loop inp) = [Category.signalPresent] ↔ ¬ inp.irValue < 50000) ∧
      (Action.println "Finger removed!" ∈ loop inp ↔ inp.irValue < 50000) ∧
      (Action.println "Monitoring..." ∈ loop inp ↔ ¬ inp.irValue < 50000)) ∧
    (∀ c : Bool, classifications (loop ⟨c, 50000⟩) = [Category.signalPresent]) ∧
    (∀ c1 c2 c3 c4 : Bool,
      classifications
          (loopIterations [⟨c1, 60000⟩, ⟨c2, 61000⟩, ⟨c3, 3000⟩, ⟨c4, 62000⟩]) =
        [Category.signalPresent, Category.signalPresent, Category.signalAbsent,
         Category.signalPresent]) := by
  refine ⟨fun inp => ⟨?_, ?_, ?_, ?_⟩, fun c => ?_, fun c1 c2 c3 c4 => ?_⟩
  · rw [classifications_loop]
    unfold thresholdCategory
    split_ifs with h <;> simp [h]
  · rw [classifications_loop]
    unfold thresholdCategory
    split_ifs with h <;> simp [h]
  · rw [loop_trace]
    split_ifs with h <;> simp [h]
  · rw [loop_trace]
    split_ifs with h <;> simp [h]
  · rw [classifications_loop]
    simp [thresholdCategory]
  · rw [classifications_loopIterations]
    simp [thresholdCategory]

/-- C4: an iteration of `loop()` that finds the broker client not connected
performs no publish on the client, whatever the reading. -/
theorem loop_no_publish_while_disconnected (inp : LoopInput)
    (h : inp.connected = false) :
    (loop inp).countP Action.isClientPublish = 0 := by
  rw [loop_trace, h]
  simp [Action.isClientPublish]

/-- Witness for C4: a reading of 60000 with the client not connected. -/
theorem loop_no_publish_while_disconnected_witness :
    (LoopInput.mk false 60000).connected = false ∧
      (loop (LoopInput.mk false 60000)).countP Action.isClientPublish = 0 :=
  ⟨rfl, loop_no_publish_while_disconnected (LoopInput.mk false 60000) rfl⟩

/-- C5: any number of iterations of `loop()`, each finding the client not
connected, performs no connect attempt on the client; a single such iteration
with reading 60000 performs exactly the five calls listed. -/
theorem loop_makes_no_reconnect_attempt :
    (∀ readings : List Int,
      (loopIterations (readings.map (fun r => LoopInput.mk false r))).countP
        Action.isClientConnect = 0) ∧
    loop (LoopInput.mk false 60000) =
      [Action.clientConnected false, Action.clientLoop, Action.getIR 60000,
       Action.println "Monitoring...", Action.delay 100] := by
  refine ⟨fun readings => ?_, by decide⟩
  rw [List.countP_eq_zero]
  intro a ha
  obtain ⟨inp, -, hin⟩ := mem_loopIterations ha
  rw [loop_trace] at hin
  simp only [List.mem_cons, List.mem_singleton, List.not_mem_nil, or_false] at hin
  rcases hin with rfl | rfl | rfl | rfl | rfl <;> simp [Action.isClientConnect]

/-- C6: for every reading and any two link states, the iteration reads the
sensor with that reading, reports the same classification, prints the same
message, and differs in nothing but the answer of `client.connected()`. -/
theorem loop_sampling_independent_of_link (r : Int) (c1 c2 : Bool) :
    Action.getIR r ∈ loop ⟨c1, r⟩ ∧
    Action.getIR r ∈ loop ⟨c2, r⟩ ∧
    classifications (loop ⟨c1, r⟩) = classifications (loop ⟨c2, r⟩) ∧
    classifications (loop ⟨c1, r⟩) = [thresholdCategory r] ∧
    (loop ⟨c1, r⟩).tail = (loop ⟨c2, r⟩).tail := by
  refine ⟨?_, ?_, ?_, ?_, ?_⟩
  · rw [loop_trace]; simp
  · rw [loop_trace]; simp
  · rw [classifications_loop, classifications_loop]
  · rw [classifications_loop]
  · rw [loop_trace, loop_trace]; rfl

/-- One iteration prints exactly one message, fixed by the threshold test. -/
theorem printed_loop (inp : LoopInput) :
    printed (loop inp) =
      [if inp.irValue < 50000 then "Finger removed!" else "Monitoring..."] := by
  rw [loop_trace]
  simp [printed, printedMessage]

/-- The messages printed by a run of iterations are those of its iterations. -/
theorem printed_loopIterations (inputs : List LoopInput) :
    printed (loopIterations inputs) =
      inputs.map (fun inp =>
        if inp.irValue < 50000 then "Finger removed!" else "Monitoring...") := by
  induction inputs with
  | nil => rfl
  | cons inp rest ih =>
    have h := printed_loop inp
    unfold printed at h ih ⊢
    simp only [loopIterations, List.filterMap_append, h, ih, List.map_cons,
      List.singleton_append]

/-- C7 (as stated, refuted): no run of `loop()` iterations, whatever the
readings and link states, prints a message other than "Finger removed!"
(signal-absent) and "Monitoring..." (signal-present), and no iteration performs
a publish; a reading of 250000 after three readings of 60000 is reported with
the same message as they are. -/
theorem loop_reports_no_third_outcome :
    (¬ ∃ (inputs : List LoopInput) (msg : String),
        msg ∈ printed (loopIterations inputs) ∧
          msg ≠ "Finger removed!" ∧ msg ≠ "Monitoring...") ∧
    (¬ ∃ (inputs : List LoopInput) (a : Action),
        a ∈ loopIterations inputs ∧ a.isClientPublish = true) ∧
    printed (loopIterations
        [⟨true, 60000⟩, ⟨true, 60000⟩, ⟨true, 60000⟩, ⟨true, 250000⟩]) =
      ["Monitoring...", "Monitoring...", "Monitoring...", "Monitoring..."] := by
  refine ⟨?_, ?_, by decide⟩
  · rintro ⟨inputs, msg, hmem, habs, hpres⟩
    rw [printed_loopIterations, List.mem_map] at hmem
    obtain ⟨inp, -, hinp⟩ := hmem
    split_ifs at hinp
    · exact habs hinp.symm
    · exact hpres hinp.symm
  · rintro ⟨inputs, a, hmem, hpub⟩
    obtain ⟨inp, -, hin⟩ := mem_loopIterations hmem
    rw [loop_trace] at hin
    simp only [List.mem_cons, List.mem_singleton, List.not_mem_nil, or_false] at hin
    rcases hin with rfl | rfl | rfl | rfl | rfl <;> simp [Action.isClientPublish] at hpub

/-- C7 (amended): every iteration of `loop()` is one of two fixed sequences of
calls, the one printing "Finger removed!" when the latest reading is below
50000 and the one printing "Monitoring..." otherwise; the messages printed by a
run are fixed reading by reading by that comparison, so the message for the
latest reading does not depend on the readings before it. -/
theorem loop_classification_two_outcomes (inputs : List LoopInput) :
    printed (loopIterations inputs) =
        inputs.map (fun inp =>
          if inp.irValue < 50000 then "Finger removed!" else "Monitoring...") ∧
    (∀ inp : LoopInput,
      (inp.irValue < 50000 ∧
        loop inp =
          [Action.clientConnected inp.connected, Action.clientLoop,
           Action.getIR inp.irValue, Action.println "Finger removed!", Action.delay 100]) ∨
      (¬ inp.irValue < 50000 ∧
        loop inp =
          [Action.clientConnected inp.connected, Action.clientLoop,
           Action.getIR inp.irValue, Action.println "Monitoring...", Action.delay 100])) ∧
    (∀ earlier : List LoopInput, ∀ inp : LoopInput,
      printed (loopIterations (earlier ++ [inp])) =
        printed (loopIterations earlier) ++
          [if inp.irValue < 50000 then "Finger removed!" else "Monitoring..."]) := by
  refine ⟨printed_loopIterations inputs, fun inp => ?_, fun earlier inp => ?_⟩
  · rw [loop_trace]
    by_cases h : inp.irValue < 50000
    · exact Or.inl ⟨h, by simp [h]⟩
    · exact Or.inr ⟨h, by simp [h]⟩
  · rw [printed_loopIterations, printed_loopIterations]
    simp

/-- C8: every iteration of `loop()` calls `client.loop()` exactly once, for
every reading and every link state. -/
theorem loop_ticks_client_once (inp : LoopInput) :
    (loop inp).count Action.clientLoop = 1 := by
  rw [loop_trace]
  simp [List.count_cons]

/-- C9 (as stated, refuted): with the client connected and a reading of 60000
the sensor read does not precede `client.loop()` in the trace, and neither does
the classification. -/
theorem loop_read_not_before_tick :
    ¬ ((loop ⟨true, 60000⟩).findIdx Action.isGetIR <
          (loop ⟨true, 60000⟩).findIdx Action.isClientLoop) ∧
    ¬ ((loop ⟨true, 60000⟩).findIdx Action.isClassification <
          (loop ⟨true, 60000⟩).findIdx Action.isClientLoop) := by
  decide

/-- C9 (amended): in every iteration the three operations all occur, in the
order `client.loop()`, then the sensor read, then the classification. -/
theorem loop_order_tick_read_classify (inp : LoopInput) :
    (loop inp).findIdx Action.isClientLoop = 1 ∧
    (loop inp).findIdx Action.isGetIR = 2 ∧
    (loop inp).findIdx Action.isClassification = 3 ∧
    (loop inp).length = 5 := by
  rw [loop_trace]
  refine ⟨by simp [List.findIdx_cons, Action.isClientLoop], by simp [List.findIdx_cons, Action.isGetIR], ?_, rfl⟩
  split_ifs <;> simp [List.findIdx_cons, Action.isClassification, categoryOf]

/-! ## Facts about `setup()` -/

/-- The loop `while (1);` is still running whatever the fuel, and adds nothing
to the trace. -/
theorem spin_running (trace : List Action) (fuel : Nat) :
    spin trace fuel = Outcome.running trace := by
  induction fuel with
  | zero => rfl
  | succ k ih => simpa [spin] using ih

/-- The WiFi wait loop performs only status polls, delays of 500 ms and prints
of the progress message. -/
theorem mem_wifiLoop (status : Nat → WlStatus) (fuel i : Nat) (a : Action)
    (h : a ∈ (wifiLoop status fuel i).2) :
    a.isWifiStatus = true ∨ a = Action.delay 500 ∨
      a = Action.println "Connecting to WiFi..." := by
  induction fuel generalizing i with
  | zero => simp [wifiLoop] at h
  | succ k ih =>
    unfold wifiLoop at h
    split_ifs at h with hc
    · simp only [List.mem_cons] at h
      rcases h with rfl | rfl | rfl | h
      · simp [Action.isWifiStatus]
      · simp
      · simp
      · exact ih (i + 1) h
    · simp only [List.mem_singleton] at h
      subst h
      simp [Action.isWifiStatus]

/-- When the WiFi wait loop is left, a poll has returned `WL_CONNECTED`. -/
theorem wifiLoop_exit_polled (status : Nat → WlStatus) (fuel i : Nat)
    (h : (wifiLoop status fuel i).1 = true) :
    Action.wifiStatus WlStatus.WL_CONNECTED ∈ (wifiLoop status fuel i).2 ∧
      ∃ n, n < fuel ∧ status (i + n) = WlStatus.WL_CONNECTED := by
  induction fuel generalizing i with
  | zero => simp [wifiLoop] at h
  | succ k ih =>
    unfold wifiLoop at h ⊢
    split_ifs at h ⊢ with hc
    · obtain ⟨hm, n, hn, hs⟩ := ih (i + 1) h
      refine ⟨by simp [hm], n + 1, by omega, ?_⟩
      rw [← hs]
      congr 1
      omega
    · have hs : status i = WlStatus.WL_CONNECTED := not_not.mp hc
      exact ⟨by simp [hs], 0, by omega, by simpa using hs⟩

/-- While no poll returns `WL_CONNECTED` the WiFi wait loop is not left. -/
theorem wifiLoop_running (status : Nat → WlStatus) (fuel i : Nat)
    (h : ∀ j, j < fuel → status (i + j) ≠ WlStatus.WL_CONNECTED) :
    (wifiLoop status fuel i).1 = false ∧
      (wifiLoop status fuel i).2.count (Action.wifiStatus WlStatus.WL_CONNECTED) = 0 := by
  induction fuel generalizing i with
  | zero => simp [wifiLoop]
  | succ k ih =>
    have h0 : status i ≠ WlStatus.WL_CONNECTED := by simpa using h 0 (by omega)
    have hrest := ih (i + 1) (fun j hj => by
      have := h (j + 1) (by omega)
      rwa [show i + (j + 1) = i + 1 + j by omega] at this)
    unfold wifiLoop
    rw [if_pos h0]
    refine ⟨hrest.1, ?_⟩
    simp only [List.count_cons, hrest.2]
    simp [h0]

/-- When the first `WL_CONNECTED` from poll `i` on comes after `n` other polls
and the fuel allows `n + 1` polls, the WiFi wait loop is left after `n` delays
and `n` progress messages, and more fuel changes nothing. -/
theorem wifiLoop_exit (status : Nat → WlStatus) (n fuel i : Nat)
    (hfirst : ∀ j, j < n → status (i + j) ≠ WlStatus.WL_CONNECTED)
    (hconn : status (i + n) = WlStatus.WL_CONNECTED) (hfuel : n < fuel) :
    (wifiLoop status fuel i).1 = true ∧
    (wifiLoop status fuel i).2.count (Action.println "Connecting to WiFi...") = n ∧
    (wifiLoop status fuel i).2.count (Action.delay 500) = n ∧
    (wifiLoop status fuel i).2.countP Action.isWifiStatus = n + 1 ∧
    wifiLoop status fuel i = wifiLoop status (n + 1) i := by
  induction n generalizing fuel i with
  | zero =>
    obtain ⟨k, rfl⟩ : ∃ k, fuel = k + 1 := ⟨fuel - 1, by omega⟩
    have hs : status i = WlStatus.WL_CONNECTED := by simpa using hconn
    unfold wifiLoop
    simp [hs, Action.isWifiStatus]
  | succ m ih =>
    obtain ⟨k, rfl⟩ : ∃ k, fuel = k + 1 := ⟨fuel - 1, by omega⟩
    have h0 : status i ≠ WlStatus.WL_CONNECTED := by simpa using hfirst 0 (by omega)
    have hrest := ih k (i + 1) (fun j hj => by
      have := hfirst (j + 1) (by omega)
      rwa [show i + (j + 1) = i + 1 + j by omega] at this)
      (by rwa [show i + 1 + m = i + (m + 1) by omega]) (by omega)
    obtain ⟨h1, h2, h3, h4, h5⟩ := hrest
    unfold wifiLoop
    rw [if_pos h0, if_pos h0]
    refine ⟨h1, ?_, ?_, ?_, ?_⟩
    · simp [List.count_cons, h2]
    · simp [List.count_cons, h3]
    · simp [List.countP_cons, h4, Action.isWifiStatus]
    · simp only [h5]

/-- When the WiFi wait loop is left, its last action is the poll that returned
`WL_CONNECTED`. -/
theorem wifiLoop_getLast (status : Nat → WlStatus) (fuel i : Nat)
    (h : (wifiLoop status fuel i).1 = true) :
    (wifiLoop status fuel i).2.getLast? = some (Action.wifiStatus WlStatus.WL_CONNECTED) := by
  induction fuel generalizing i with
  | zero => simp [wifiLoop] at h
  | succ k ih =>
    unfold wifiLoop at h ⊢
    split_ifs at h ⊢ with hc
    · have hrest := ih (i + 1) h
      cases ht : (wifiLoop status k (i + 1)).2 with
      | nil => rw [ht] at hrest; simp at hrest
      | cons x xs =>
        rw [ht] at hrest
        simp only [ht, List.getLast?_cons_cons]
        exact hrest
    · have hs : status i = WlStatus.WL_CONNECTED := not_not.mp hc
      simp [hs]

/-- The three ways `setup()` can go, by the state of the WiFi wait loop and the
result of `particleSensor.begin`. -/
theorem setup_cases (env : Env) (fuel : Nat) :
    setup env fuel =
      if (wifiLoop env.wifiStatus fuel 0).1 = true then
        if env.sensorBegin = true then
          Outcome.returned
            ([Action.serialBegin 115200, Action.wifiBegin ssid password] ++
              (wifiLoop env.wifiStatus fuel 0).2 ++
              [Action.sensorBegin true, Action.sensorSetup, Action.setServer mqtt_server 1883])
        else
          Outcome.running
            ([Action.serialBegin 115200, Action.wifiBegin ssid password] ++
              (wifiLoop env.wifiStatus fuel 0).2 ++
              [Action.sensorBegin false,
               Action.println "MAX30105 was not found. Please check wiring/power. "])
      else
        Outcome.running
          ([Action.serialBegin 115200, Action.wifiBegin ssid password] ++
            (wifiLoop env.wifiStatus fuel 0).2) := by
  unfold setup
  rcases hw : wifiLoop env.wifiStatus fuel 0 with ⟨b, t⟩
  cases b <;> cases hs : env.sensorBegin <;> simp [spin_running]

/-- Every action of `setup()` is one of its own calls: none of them is a call
made by `loop()`. -/
theorem mem_setup (env : Env) (fuel : Nat) (a : Action)
    (h : a ∈ (setup env fuel).trace) :
    a = Action.serialBegin 115200 ∨ a = Action.wifiBegin ssid password ∨
    a.isWifiStatus = true ∨ a = Action.delay 500 ∨
    a = Action.println "Connecting to WiFi..." ∨
    a = Action.sensorBegin true ∨ a = Action.sensorBegin false ∨
    a = Action.println "MAX30105 was not found. Please check wiring/power. " ∨
    a = Action.sensorSetup ∨ a = Action.setServer mqtt_server 1883 := by
  rw [setup_cases] at h
  have hw := mem_wifiLoop env.wifiStatus fuel 0 a
  split_ifs at h <;>
    simp only [Outcome.trace, List.mem_append, List.mem_cons, List.mem_singleton,
      List.not_mem_nil, or_false] at h <;>
    tauto

/-- A status poll is neither a sensor read nor a call of `client.loop()`. -/
theorem not_loop_call_of_isWifiStatus (a : Action) (h : a.isWifiStatus = true) :
    a.isGetIR = false ∧ a.isClientLoop = false ∧ a.isSensorBegin = false ∧
      a ≠ Action.println "MAX30105 was not found. Please check wiring/power. " := by
  cases a <;> simp_all [Action.isWifiStatus, Action.isGetIR, Action.isClientLoop,
    Action.isSensorBegin]

/-- Nothing before the end of the WiFi wait loop is a call of
`particleSensor.begin`. -/
theorem wifi_part_no_sensorBegin (status : Nat → WlStatus) (fuel : Nat) (a : Action)
    (h : a ∈ [Action.serialBegin 115200, Action.wifiBegin ssid password] ++
      (wifiLoop status fuel 0).2) :
    (!a.isSensorBegin) = true := by
  simp only [List.mem_append, List.mem_cons, List.mem_singleton, List.not_mem_nil,
    or_false] at h
  rcases h with (rfl | rfl) | h
  · rfl
  · rfl
  · rcases mem_wifiLoop status fuel 0 a h with hs | rfl | rfl
    · simp [(not_loop_call_of_isWifiStatus a hs).2.2.1]
    · rfl
    · rfl

/-- The part of the trace of `setup()` before the sensor is started is the
opening two calls followed by the WiFi wait loop. -/
theorem beforeSensorInit_setup (env : Env) (fuel : Nat) :
    beforeSensorInit (setup env fuel).trace =
      [Action.serialBegin 115200, Action.wifiBegin ssid password] ++
        (wifiLoop env.wifiStatus fuel 0).2 := by
  have hp := wifi_part_no_sensorBegin env.wifiStatus fuel
  rw [setup_cases]
  unfold beforeSensorInit
  split_ifs
  · simp only [Outcome.trace]
    rw [List.takeWhile_append_of_pos hp]
    simp [Action.isSensorBegin]
  · simp only [Outcome.trace]
    rw [List.takeWhile_append_of_pos hp]
    simp [Action.isSensorBegin]
  · simp only [Outcome.trace]
    exact List.takeWhile_eq_self_iff.mpr hp

/-- The sensor is started exactly when the WiFi wait loop has been left. -/
theorem countP_sensorBegin_setup (env : Env) (fuel : Nat) :
    (setup env fuel).trace.countP Action.isSensorBegin =
      if (wifiLoop env.wifiStatus fuel 0).1 = true then 1 else 0 := by
  have hp := wifi_part_no_sensorBegin env.wifiStatus fuel
  have hz : ([Action.serialBegin 115200, Action.wifiBegin ssid password] ++
      (wifiLoop env.wifiStatus fuel 0).2).countP Action.isSensorBegin = 0 := by
    rw [List.countP_eq_zero]
    intro a ha
    simpa using hp a ha
  rw [setup_cases]
  split_ifs <;> simp only [Outcome.trace]
  · rw [List.countP_append, hz]; rfl
  · rw [List.countP_append, hz]; rfl
  · exact hz

/-- The fault message is not printed before the end of the WiFi wait loop. -/
theorem wifi_part_no_fault (status : Nat → WlStatus) (fuel : Nat) :
    ([Action.serialBegin 115200, Action.wifiBegin ssid password] ++
      (wifiLoop status fuel 0).2).count
        (Action.println "MAX30105 was not found. Please check wiring/power. ") = 0 := by
  rw [List.count_eq_zero]
  intro h
  simp only [List.mem_append, List.mem_cons, List.mem_singleton, List.not_mem_nil,
    or_false] at h
  rcases h with (h | h) | h
  · exact absurd h (by decide)
  · exact absurd h (by simp)
  · rcases mem_wifiLoop status fuel 0 _ h with h | h | h
    · exact (not_loop_call_of_isWifiStatus _ h).2.2.2 rfl
    · exact absurd h (by simp)
    · exact absurd h (by decide)

/-- With a sensor that is not found, `setup()` is still running whatever the
fuel, and its trace is as follows. -/
theorem setup_of_sensor_fault (env : Env) (hfail : env.sensorBegin = false) (fuel : Nat) :
    setup env fuel =
      Outcome.running
        ([Action.serialBegin 115200, Action.wifiBegin ssid password] ++
          (wifiLoop env.wifiStatus fuel 0).2 ++
          if (wifiLoop env.wifiStatus fuel 0).1 = true then
            [Action.sensorBegin false,
             Action.println "MAX30105 was not found. Please check wiring/power. "]
          else []) := by
  rw [setup_cases]
  split_ifs with h1 h2
  · rw [hfail] at h2; exact absurd h2 (by decide)
  · rfl
  · simp

/-- C2: when the WiFi connects (first `WL_CONNECTED` at poll `n`) and
`particleSensor.begin` returns failure, `setup()` never returns whatever the
fuel, so the run consists of the actions of `setup()` alone and contains no
`getIR` and no `client.loop()`; once the connect step is over the fault message
has been printed exactly once, it is the last action, and more fuel adds
nothing to the run. -/
theorem setup_sensor_fault_halts (env : Env) (n : Nat)
    (hconn : env.wifiStatus n = WlStatus.WL_CONNECTED)
    (hfirst : ∀ i, i < n → env.wifiStatus i ≠ WlStatus.WL_CONNECTED)
    (hfail : env.sensorBegin = false) :
    (∀ fuel,
      (setup env fuel).hasReturned = false ∧
      main env fuel = (setup env fuel).trace ∧
      (main env fuel).countP Action.isGetIR = 0 ∧
      (main env fuel).countP Action.isClientLoop = 0 ∧
      (main env fuel).count
        (Action.println "MAX30105 was not found. Please check wiring/power. ") ≤ 1) ∧
    (∀ fuel, n < fuel →
      (main env fuel).count
        (Action.println "MAX30105 was not found. Please check wiring/power. ") = 1 ∧
      (main env fuel).getLast? =
        some (Action.println "MAX30105 was not found. Please check wiring/power. ") ∧
      main env fuel = main env (n + 1)) := by
  have hmain : ∀ fuel, main env fuel = (setup env fuel).trace := by
    intro fuel
    unfold main
    rw [setup_of_sensor_fault env hfail fuel]
    rfl
  have hexit : ∀ fuel, n < fuel →
      (wifiLoop env.wifiStatus fuel 0).1 = true ∧
        wifiLoop env.wifiStatus fuel 0 = wifiLoop env.wifiStatus (n + 1) 0 := by
    intro fuel hf
    have h := wifiLoop_exit env.wifiStatus n fuel 0
      (fun j hj => by simpa using hfirst j hj) (by simpa using hconn) hf
    exact ⟨h.1, h.2.2.2.2⟩
  refine ⟨fun fuel => ⟨?_, hmain fuel, ?_, ?_, ?_⟩, fun fuel hf => ⟨?_, ?_, ?_⟩⟩
  · rw [setup_of_sensor_fault env hfail fuel]
    rfl
  · rw [hmain, List.countP_eq_zero]
    intro a ha
    rcases mem_setup env fuel a ha with
      rfl | rfl | hs | rfl | rfl | rfl | rfl | rfl | rfl | rfl
    · simp [Action.isGetIR]
    · simp [Action.isGetIR]
    · simp [(not_loop_call_of_isWifiStatus a hs).1]
    all_goals simp [Action.isGetIR]
  · rw [hmain, List.countP_eq_zero]
    intro a ha
    rcases mem_setup env fuel a ha with
      rfl | rfl | hs | rfl | rfl | rfl | rfl | rfl | rfl | rfl
    · simp [Action.isClientLoop]
    · simp [Action.isClientLoop]
    · simp [(not_loop_call_of_isWifiStatus a hs).2.1]
    all_goals simp [Action.isClientLoop]
  · rw [hmain, setup_of_sensor_fault env hfail fuel]
    simp only [Outcome.trace]
    rw [List.count_append, wifi_part_no_fault]
    split_ifs <;> simp [List.count_cons]
  · rw [hmain, setup_of_sensor_fault env hfail fuel]
    simp only [Outcome.trace]
    rw [List.count_append, wifi_part_no_fault, if_pos (hexit fuel hf).1]
    simp [List.count_cons]
  · rw [hmain, setup_of_sensor_fault env hfail fuel]
    simp only [Outcome.trace]
    rw [if_pos (hexit fuel hf).1, List.getLast?_append]
    rfl
  · rw [hmain, hmain, setup_of_sensor_fault env hfail fuel,
      setup_of_sensor_fault env hfail (n + 1), (hexit fuel hf).2]

/-- Witness for C2: the WiFi connects at the third poll and the sensor is not
found. -/
theorem setup_sensor_fault_halts_witness :
    faultEnv.wifiStatus 2 = WlStatus.WL_CONNECTED ∧
    (∀ i, i < 2 → faultEnv.wifiStatus i ≠ WlStatus.WL_CONNECTED) ∧
    faultEnv.sensorBegin = false ∧
    (∀ fuel,
      (setup faultEnv fuel).hasReturned = false ∧
      main faultEnv fuel = (setup faultEnv fuel).trace ∧
      (main faultEnv fuel).countP Action.isGetIR = 0 ∧
      (main faultEnv fuel).countP Action.isClientLoop = 0 ∧
      (main faultEnv fuel).count
        (Action.println "MAX30105 was not found. Please check wiring/power. ") ≤ 1) ∧
    (∀ fuel, 2 < fuel →
      (main faultEnv fuel).count
        (Action.println "MAX30105 was not found. Please check wiring/power. ") = 1 ∧
      (main faultEnv fuel).getLast? =
        some (Action.println "MAX30105 was not found. Please check wiring/power. ") ∧
      main faultEnv fuel = main faultEnv (2 + 1)) :=
  ⟨by decide, by decide, rfl,
    setup_sensor_fault_halts faultEnv 2 (by decide) (by decide) rfl⟩

/-- C3 (as stated, refuted): with a status that never becomes `WL_CONNECTED`
no amount of fuel lets the connect step of `setup()` finish. -/
theorem wifi_wait_can_block :
    ¬ ∃ fuel : Nat, (wifiLoop neverConnected fuel 0).1 = true := by
  rintro ⟨fuel, h⟩
  have hr := (wifiLoop_running neverConnected fuel 0 (fun j _ => by
    unfold neverConnected
    decide)).1
  rw [hr] at h
  exact absurd h (by decide)

/-- C3 (amended): the connect step of `setup()` finishes after finitely many
polls exactly when some poll returns `WL_CONNECTED`. -/
theorem wifi_wait_finishes_iff (status : Nat → WlStatus) :
    (∃ fuel : Nat, (wifiLoop status fuel 0).1 = true) ↔
      ∃ n : Nat, status n = WlStatus.WL_CONNECTED := by
  constructor
  · rintro ⟨fuel, h⟩
    obtain ⟨-, n, -, hn⟩ := wifiLoop_exit_polled status fuel 0 h
    exact ⟨n, by simpa using hn⟩
  · intro h
    refine ⟨Nat.find h + 1, ?_⟩
    exact (wifiLoop_exit status (Nat.find h) (Nat.find h + 1) 0
      (fun j hj => by simpa using Nat.find_min h hj)
      (by simpa using Nat.find_spec h) (by omega)).1

/-- C10: when the first `WL_CONNECTED` is returned by poll `n`, then once the
connect step is over `setup()` has started the sensor exactly once, and before
that it has printed "Connecting to WiFi..." exactly `n` times, waited exactly
`n` delays of 500 ms, and polled `n + 1` times, the last poll returning
`WL_CONNECTED`; nothing is printed or waited for after that; with fuel for at
most `n` polls the sensor is not started; and for every environment the sensor
is started only after a poll has returned `WL_CONNECTED`. -/
theorem setup_waits_until_connected (env : Env) (n : Nat)
    (hconn : env.wifiStatus n = WlStatus.WL_CONNECTED)
    (hfirst : ∀ i, i < n → env.wifiStatus i ≠ WlStatus.WL_CONNECTED) :
    (∀ fuel, n < fuel →
      (setup env fuel).trace.countP Action.isSensorBegin = 1 ∧
      (beforeSensorInit (setup env fuel).trace).count
        (Action.println "Connecting to WiFi...") = n ∧
      (beforeSensorInit (setup env fuel).trace).count (Action.delay 500) = n ∧
      (beforeSensorInit (setup env fuel).trace).countP Action.isWifiStatus = n + 1 ∧
      (beforeSensorInit (setup env fuel).trace).getLast? =
        some (Action.wifiStatus WlStatus.WL_CONNECTED) ∧
      (setup env fuel).trace.count (Action.println "Connecting to WiFi...") = n ∧
      (setup env fuel).trace.count (Action.delay 500) = n) ∧
    (∀ fuel, fuel ≤ n → (setup env fuel).trace.countP Action.isSensorBegin = 0) ∧
    (∀ (e : Env) (fuel : Nat), (setup e fuel).trace.countP Action.isSensorBegin ≠ 0 →
      Action.wifiStatus WlStatus.WL_CONNECTED ∈ beforeSensorInit (setup e fuel).trace) := by
  refine ⟨fun fuel hf => ?_, fun fuel hf => ?_, fun e fuel hne => ?_⟩
  · obtain ⟨h1, h2, h3, h4, -⟩ := wifiLoop_exit env.wifiStatus n fuel 0
      (fun j hj => by simpa using hfirst j hj) (by simpa using hconn) hf
    have hlast := wifiLoop_getLast env.wifiStatus fuel 0 h1
    refine ⟨?_, ?_, ?_, ?_, ?_, ?_, ?_⟩
    · rw [countP_sensorBegin_setup, if_pos h1]
    · rw [beforeSensorInit_setup, List.count_append, h2]
      simp [List.count_cons]
    · rw [beforeSensorInit_setup, List.count_append, h3]
      simp [List.count_cons]
    · rw [beforeSensorInit_setup, List.countP_append, h4]
      simp [List.countP_cons, Action.isWifiStatus]
    · rw [beforeSensorInit_setup, List.getLast?_append, hlast]
      rfl
    · rw [setup_cases, if_pos h1]
      split_ifs <;> simp only [Outcome.trace] <;>
        rw [List.count_append, List.count_append, h2] <;> simp [List.count_cons]
    · rw [setup_cases, if_pos h1]
      split_ifs <;> simp only [Outcome.trace] <;>
        rw [List.count_append, List.count_append, h3] <;> simp [List.count_cons]
  · have hr := (wifiLoop_running env.wifiStatus fuel 0 (fun j hj => by
      simpa using hfirst j (by omega))).1
    rw [countP_sensorBegin_setup, hr]
    simp
  · rw [countP_sensorBegin_setup] at hne
    have h1 : (wifiLoop e.wifiStatus fuel 0).1 = true := by
      by_contra hc
      rw [if_neg hc] at hne
      exact hne rfl
    rw [beforeSensorInit_setup]
    exact List.mem_append_right _ (wifiLoop_exit_polled e.wifiStatus fuel 0 h1).1

/-- Witness for C10: the first `WL_CONNECTED` is returned by the third poll. -/
theorem setup_waits_until_connected_witness :
    okEnv.wifiStatus 2 = WlStatus.WL_CONNECTED ∧
    (∀ i, i < 2 → okEnv.wifiStatus i ≠ WlStatus.WL_CONNECTED) ∧
    ((∀ fuel, 2 < fuel →
      (setup okEnv fuel).trace.countP Action.isSensorBegin = 1 ∧
      (beforeSensorInit (setup okEnv fuel).trace).count
        (Action.println "Connecting to WiFi...") = 2 ∧
      (beforeSensorInit (setup okEnv fuel).trace).count (Action.delay 500) = 2 ∧
      (beforeSensorInit (setup okEnv fuel).trace).countP Action.isWifiStatus = 2 + 1 ∧
      (beforeSensorInit (setup okEnv fuel).trace).getLast? =
        some (Action.wifiStatus WlStatus.WL_CONNECTED) ∧
      (setup okEnv fuel).trace.count (Action.println "Connecting to WiFi...") = 2 ∧
      (setup okEnv fuel).trace.count (Action.delay 500) = 2) ∧
    (∀ fuel, fuel ≤ 2 → (setup okEnv fuel).trace.countP Action.isSensorBegin = 0) ∧
    (∀ (e : Env) (fuel : Nat), (setup e fuel).trace.countP Action.isSensorBegin ≠ 0 →
      Action.wifiStatus WlStatus.WL_CONNECTED ∈ beforeSensorInit (setup e fuel).trace)) :=
  ⟨by decide, by decide, setup_waits_until_connected okEnv 2 (by decide) (by decide)⟩

end PulseOximeter
